import Mathlib

/-!
Verification of the case/message domain service layer of the
conflict-management system (Node.js/Mongoose backend).

Shallow embedding conventions:
- Mongo ObjectIds are modelled as `Nat` (ObjectIds are objects in JS, hence
  always truthy; equality is `toString()` equality, modelled as `Nat` equality).
- `Date` values are modelled as `Nat` timestamps.
- Nullable references (`default: null` in the schemas) are `Option Nat`.
- A JS string field with an enum schema is modelled as `String`, except the
  Case fields `status` and `priority`, which an update can explicitly null and
  are therefore `Option String`.
- The document store is modelled as a `List` of documents; `findById` is
  `List.find?` on the `_id` field (modelled as field `id`).
- Thrown service errors (`statusCode` 404 / 403) and uncaught TypeErrors are
  modelled with `Except ServiceError`.
- MongoDB query semantics: an equality condition on a dotted path through an
  array field (e.g. `'recipients.isRead': false`) matches a document iff SOME
  array element satisfies it, and several such conditions in one filter are
  satisfied independently, possibly by different elements (same-element
  conjunction requires `$elemMatch`, which the source never uses).
-/

/-- Service-level failure kinds: `notFound` is a thrown error with
`statusCode = 404`, `forbidden` with `statusCode = 403`; `typeError` models an
uncaught JS `TypeError` escaping the service method. -/
inductive ServiceError where
  | notFound
  | forbidden
  | typeError
deriving Repr, DecidableEq

/-- Authenticated user context supplied by the auth boundary:
`{id, role, panelistId?}` (plus display `name`, used by `createMessage` to
compose the sender block).  `role` is a plain string in the source, so it is
modelled as `String` (the declared enum is admin/client/panelist, but nothing
in the checked code restricts it). -/
structure UserCtx where
  id : Nat
  role : String
  panelistId : Option Nat
  name : String
deriving Repr, DecidableEq

/-- One entry of `Case.assignedPanelists` (Case.js schema): the `panelist` and
`assignedBy` references are `required`, `status` defaults to "active". -/
structure PanelEntry where
  panelist : Nat
  assignedAt : Nat
  assignedBy : Nat
  status : String
deriving Repr, DecidableEq

/-- The Case document (Case.js schema), restricted to the fields read or
written by the embedded operations; the omitted fields (caseId, sessionId,
parties, documents, notes, resolution tracking, finalization) are never
touched by the operations the claims concern.  The enum fields `status` and
`priority` carry schema defaults, but an update can `$set` them to an explicit
null — mongoose validators (enum included) skip null values — so they are
modelled as nullable. -/
structure Case where
  id : Nat
  title : String
  description : String
  type : String
  status : Option String
  priority : Option String
  createdBy : Nat
  assignedTo : Option Nat
  assignedAt : Option Nat
  assignedPanelists : List PanelEntry
  panelAssignedAt : Option Nat
  createdAt : Nat
  updatedAt : Nat
deriving Repr, DecidableEq

/-- `CaseSchema.pre('save')` hook: every `save()` sets `updatedAt = Date.now()`.
(`findByIdAndUpdate` does NOT run this hook.) -/
def Case.saveHook (c : Case) (now : Nat) : Case :=
  { c with updatedAt := now }

/-- Sender block of a Message (Message.js schema). -/
structure Sender where
  userType : String
  userId : Nat
  panelistId : Option Nat
  name : String
deriving Repr, DecidableEq

/-- One entry of `Message.recipients` (Message.js schema): `userId` and
`panelistId` default to null; `isRead` defaults to false, `readAt` to null. -/
structure Recipient where
  recipientType : String
  userId : Option Nat
  panelistId : Option Nat
  name : String
  email : String
  isRead : Bool
  readAt : Option Nat
deriving Repr, DecidableEq

/-- The Message document (Message.js schema); `case` is a Lean keyword, so the
case reference field is named `caseRef`.  `attachments` is omitted (never read
or written by the embedded operations). -/
structure Message where
  id : Nat
  caseRef : Nat
  sender : Sender
  recipients : List Recipient
  subject : String
  content : String
  messageType : String
  priority : String
  isDeleted : Bool
  createdAt : Nat
  updatedAt : Nat
deriving Repr, DecidableEq

/-- `MessageSchema.pre('save')` hook: every `save()` sets
`updatedAt = Date.now()`. -/
def Message.saveHook (m : Message) (now : Nat) : Message :=
  { m with updatedAt := now }

/-- Outcome of `_checkCaseAccess`: the JS function returns `true` (allowed),
throws a 403 error (forbidden), or — when a panelist context has a null
`panelistId` and the `.some` callback dereferences it — throws a TypeError. -/
inductive AccessOutcome where
  | allowed
  | forbidden
  | typeError
deriving Repr, DecidableEq

/-- `CaseService._checkCaseAccess(caseData, user)` (and the identical
`MessageService._checkCaseAccess`, whose only textual difference is
`assignedPanelists?.some` — the optional chaining matters only when the array
field is absent, which the schema default `[]` precludes).

JS control flow embedded:
admin returns true immediately; the client branch throws 403 on owner
mismatch; the panelist branch calls
`assignedPanelists.some(ap => ap.panelist.toString() === user.panelistId.toString() && ap.status === 'active')`
— on an empty array `.some` never invokes the callback and yields false
(hence a 403 throw), while on a non-empty array the first callback invocation
dereferences `user.panelistId`, throwing a TypeError when it is null; any
other role falls through every branch to the final `return true`. -/
def checkCaseAccess (caseData : Case) (user : UserCtx) : AccessOutcome :=
  if user.role == "admin" then
    .allowed
  else if user.role == "client" then
    if caseData.createdBy == user.id then .allowed else .forbidden
  else if user.role == "panelist" then
    match caseData.assignedPanelists with
    | [] => .forbidden
    | _ :: _ =>
      match user.panelistId with
      | none => .typeError
      | some pid =>
        if caseData.assignedPanelists.any
            (fun ap => ap.panelist == pid && ap.status == "active") then
          .allowed
        else
          .forbidden
  else
    .allowed

/-- `MessageSchema.methods.markAsRead`, recipient-list part:
`this.recipients.find(r => r.userId && r.userId.toString() === userId.toString())`
locates the FIRST recipient entry with a non-null matching `userId`; if it is
found and `!recipient.isRead`, that entry's `isRead` is set to true and
`readAt` to `Date.now()`; later entries are left untouched in every case. -/
def markRecipientRead (userId now : Nat) : List Recipient → List Recipient
  | [] => []
  | r :: rs =>
    if r.userId == some userId then
      (if !r.isRead then { r with isRead := true, readAt := some now } else r) :: rs
    else
      r :: markRecipientRead userId now rs

/-- `MessageSchema.methods.markAsRead(userId)`: mutates at most the first
matching recipient entry, then unconditionally calls `this.save()`, whose
`pre('save')` hook stamps `updatedAt = Date.now()`. -/
def Message.markAsRead (m : Message) (userId now : Nat) : Message :=
  Message.saveHook { m with recipients := markRecipientRead userId now m.recipients } now

/-- Whether a document matches the Mongo filter of
`MessageSchema.statics.getUnreadCount` / `MessageRepository.findUnreadByUser`:
`{'recipients.userId': userId, 'recipients.isRead': false, isDeleted: false}`.
Per MongoDB array-query semantics each dotted condition is satisfied by SOME
recipient entry, independently of the other condition (no `$elemMatch`). -/
def unreadFilterMatches (userId : Nat) (m : Message) : Bool :=
  m.recipients.any (fun r => r.userId == some userId) &&
  m.recipients.any (fun r => r.isRead == false) &&
  m.isDeleted == false

/-- `MessageSchema.statics.getUnreadCount(userId)`: fetches all documents
matching `unreadFilterMatches` and returns `messages.length`.
`MessageService.getUnreadCount` = `MessageRepository.countUnreadByUser` =
this static. -/
def Message.getUnreadCount (db : List Message) (userId : Nat) : Nat :=
  (db.filter (unreadFilterMatches userId)).length

/-- `MessageRepository.findUnreadByUser(userId, page, limit)`: same filter,
sorted by `createdAt` descending and paginated; the full match set, of which
every returned page is a sublist, is embedded (the sort permutes it and
`skip`/`limit` slice it, neither changes membership). -/
def findUnreadByUser (db : List Message) (userId : Nat) : List Message :=
  db.filter (unreadFilterMatches userId)

/-- `MessageRepository.findById`: `Message.findById(id)`. -/
def MessageRepo.findById (db : List Message) (id : Nat) : Option Message :=
  db.find? (fun m => m.id == id)

/-- `MessageRepository.markAsRead(messageId, userId)`: loads the message,
returns null when absent, otherwise invokes the instance method (which always
saves) and returns the saved document. -/
def MessageRepo.markAsRead (db : List Message) (messageId userId now : Nat) :
    Option Message :=
  match MessageRepo.findById db messageId with
  | none => none
  | some m => some (m.markAsRead userId now)

/-- `MessageService.markMessageAsRead(messageId, userId)`: throws 404 exactly
when the repository returned null, otherwise returns the message. -/
def markMessageAsRead (db : List Message) (messageId userId now : Nat) :
    Except ServiceError Message :=
  match MessageRepo.markAsRead db messageId userId now with
  | none => .error .notFound
  | some m => .ok m

/-- Per-document effect of `MessageRepository.bulkMarkAsRead(messageIds, userId)`:
`updateMany({_id: {$in: messageIds}, 'recipients.userId': userId},
{$set: {'recipients.$[elem].isRead': true, 'recipients.$[elem].readAt': now}},
{arrayFilters: [{'elem.userId': userId}]})` — a document is touched iff its id
is in the set and some recipient entry carries the user's id, and then every
entry matching the array filter gets `isRead`/`readAt` set (`updateMany`
bypasses the save hook, so `updatedAt` is untouched). -/
def bulkMarkMessage (messageIds : List Nat) (userId now : Nat) (m : Message) :
    Message :=
  if messageIds.contains m.id && m.recipients.any (fun r => r.userId == some userId) then
    { m with recipients := m.recipients.map (fun r =>
        if r.userId == some userId then { r with isRead := true, readAt := some now } else r) }
  else
    m

/-- `MessageRepository.bulkMarkAsRead` over the whole store. -/
def bulkMarkAsRead (db : List Message) (messageIds : List Nat) (userId now : Nat) :
    List Message :=
  db.map (bulkMarkMessage messageIds userId now)

/-- Per-document effect of `MessageRepository.deleteById(id)` (the soft delete):
`findByIdAndUpdate(id, {isDeleted: true})` — no save hook runs, nothing else
changes. -/
def softDelete (m : Message) : Message :=
  { m with isDeleted := true }

/-- `CaseRepository.findById`: `Case.findById(id)`. -/
def findCase (db : List Case) (id : Nat) : Option Case :=
  db.find? (fun c => c.id == id)

/-- Payload of `MessageService.createMessage` as used by the service: the case
reference plus the caller-provided recipient fan-out and content fields.  A
`sender` key in the payload would be overwritten by the spread
`{...messageData, sender: {...}}`, so it is not modelled. -/
structure MessagePayload where
  caseRef : Nat
  recipients : List Recipient
  subject : String
  content : String
  messageType : String
  priority : String
deriving Repr, DecidableEq

/-- `MessageService.createMessage(messageData, sender)`: throws 404 when the
referenced case does not exist; otherwise persists a message whose `sender`
block is composed from the authenticated identity
(`{userType: sender.role, userId: sender.id, panelistId: sender.panelistId || null, name: sender.name}`)
and whose recipients are exactly the caller-provided list.  No access check of
the sender against the case is performed.  `newId`/`now` model the id and
timestamps the store assigns at creation. -/
def createMessage (caseDb : List Case) (messageData : MessagePayload)
    (sender : UserCtx) (newId now : Nat) : Except ServiceError Message :=
  match findCase caseDb messageData.caseRef with
  | none => .error .notFound
  | some _ => .ok
      { id := newId
        caseRef := messageData.caseRef
        sender :=
          { userType := sender.role
            userId := sender.id
            panelistId := sender.panelistId
            name := sender.name }
        recipients := messageData.recipients
        subject := messageData.subject
        content := messageData.content
        messageType := messageData.messageType
        priority := messageData.priority
        isDeleted := false
        createdAt := now
        updatedAt := now }

/-- Truthy string filter of `CaseService.listCases`: `if (status) filter.status = status`
adds the equality condition only for truthy (present, non-empty) values; a
document whose stored field is null never matches the added condition. -/
def optStrFilter (v? : Option String) (field : Option String) : Bool :=
  match v? with
  | none => true
  | some v => if v == "" then true else field == some v

/-- Whether a case matches the Mongo filter built by `CaseService.listCases`
for `user` (with the identical panelist filter shape used by
`CaseRepository.findByPanelist`): clients get `{createdBy: user.id}`,
panelists get `{'assignedPanelists.panelist': user.panelistId,
'assignedPanelists.status': 'active'}`, any other role gets no implicit
filter.  Per MongoDB array-query semantics the two dotted panelist conditions
are matched independently, possibly by different `assignedPanelists` entries
(no `$elemMatch`); `ap.panelist` is a required field, so it never matches a
null `user.panelistId`. -/
def listCasesFilter (user : UserCtx) (status? type? : Option String) (c : Case) :
    Bool :=
  (if user.role == "client" then c.createdBy == user.id
   else if user.role == "panelist" then
     c.assignedPanelists.any (fun ap => some ap.panelist == user.panelistId) &&
     c.assignedPanelists.any (fun ap => ap.status == "active")
   else true) &&
  optStrFilter status? c.status &&
  optStrFilter type? c.type

/-- The full match set of `CaseService.listCases(user, ...)`: the documents
`caseRepo.findCasesWithPopulation` selects.  The source then sorts this set by
`createdAt` descending and slices the requested page, so every returned page
is a sublist of this list; sorting and slicing never add members. -/
def listCasesCases (db : List Case) (user : UserCtx) (status? type? : Option String) :
    List Case :=
  db.filter (listCasesFilter user status? type?)

/-- A JSON patch to a case as accepted by `CaseService.updateCase`, restricted
to the schema fields the claims concern.  Outer `Option` = key present in the
patch object; for `status`, `priority` and `assignedTo` an inner `Option`
distinguishes an explicit JSON `null` (`some none`) from a real value.
`assignedPanelists` carries no inner null: any present array value is truthy
and hence stripped for non-admins, and no claim exercises a null array patch
(on a null stored array the two `_checkCaseAccess` variants diverge, which is
outside the claims' scope). -/
structure CasePatch where
  title : Option String := none
  description : Option String := none
  status : Option (Option String) := none
  priority : Option (Option String) := none
  assignedTo : Option (Option Nat) := none
  assignedPanelists : Option (List PanelEntry) := none
deriving Repr, DecidableEq

/-- JS truthiness of a patched nullable string value: null is falsy, and the
empty string is the only falsy string. -/
def strValTruthy : Option String → Bool
  | none => false
  | some s => !(s == "")

/-- JS truthiness of a patched nullable ObjectId value: ObjectIds are objects
(always truthy); only null is falsy. -/
def refTruthy : Option Nat → Bool
  | none => false
  | some _ => true

/-- The restricted-field strip of `CaseService.updateCase` for non-admins:
`['status','assignedTo','assignedPanelists','priority'].forEach(f => { if (updateData[f]) delete updateData[f]; })`
— a field is deleted from the patch only when its value is truthy: truthy
strings and non-null ObjectIds are dropped, arrays are always truthy in JS
(even `[]`) and hence always dropped, while an explicit null or empty string
survives the strip. -/
def stripRestrictedFields (patch : CasePatch) : CasePatch :=
  { patch with
    status := match patch.status with
      | some v => if strValTruthy v then none else some v
      | none => none
    priority := match patch.priority with
      | some v => if strValTruthy v then none else some v
      | none => none
    assignedTo := match patch.assignedTo with
      | some v => if refTruthy v then none else some v
      | none => none
    assignedPanelists := none }

/-- `CaseRepository.updateById(id, updateData)` =
`Case.findByIdAndUpdate(id, updateData, {new: true, runValidators: true})`:
a `$set` of each present patch key on the loaded document.  No save hook runs,
so `updatedAt` is untouched.  Setting `status`/`priority`/`assignedTo` to an
explicit null clears the field — mongoose update validators skip null values —
while a non-null enum value is subject to the enum validator, which rejects
the empty string; the theorems therefore exclude the empty string (the only
falsy string) by hypothesis rather than modelling the ValidationError path. -/
def applyPatch (c : Case) (patch : CasePatch) : Case :=
  { c with
    title := patch.title.getD c.title
    description := patch.description.getD c.description
    status := match patch.status with
      | some v => v
      | none => c.status
    priority := match patch.priority with
      | some v => v
      | none => c.priority
    assignedTo := match patch.assignedTo with
      | some v => v
      | none => c.assignedTo
    assignedPanelists := patch.assignedPanelists.getD c.assignedPanelists }

/-- `CaseService.updateCase(caseId, updateData, user)`: loads the case (404
when absent), runs `_checkCaseAccess` (its 403 or TypeError propagates), strips
the restricted fields when `user.role !== 'admin'`, then persists via
`caseRepo.updateById`. -/
def updateCase (db : List Case) (caseId : Nat) (updateData : CasePatch)
    (user : UserCtx) : Except ServiceError Case :=
  match findCase db caseId with
  | none => .error .notFound
  | some existingCase =>
    match checkCaseAccess existingCase user with
    | .forbidden => .error .forbidden
    | .typeError => .error .typeError
    | .allowed =>
      let updateData' :=
        if user.role == "admin" then updateData else stripRestrictedFields updateData
      .ok (applyPatch existingCase updateData')

/-- `CaseService.assignPanelists(caseId, panelistIds, assignedBy)`: loads the
case (404 when absent), pushes one `{panelist, assignedBy, assignedAt: now,
status: 'active'}` entry per supplied id onto `assignedPanelists` (no
deduplication), sets `status = 'panel_assigned'` and `panelAssignedAt = now`,
then calls `caseData.save()` (whose hook stamps `updatedAt = now`). -/
def assignPanelists (db : List Case) (caseId : Nat) (panelistIds : List Nat)
    (assignedBy now : Nat) : Except ServiceError Case :=
  match findCase db caseId with
  | none => .error .notFound
  | some caseData =>
    let newPanelists := panelistIds.map (fun panelistId =>
      { panelist := panelistId
        assignedAt := now
        assignedBy := assignedBy
        status := "active" : PanelEntry })
    .ok (Case.saveHook
      { caseData with
        assignedPanelists := caseData.assignedPanelists ++ newPanelists
        status := some "panel_assigned"
        panelAssignedAt := some now } now)

deriving instance DecidableEq for Except

/-- Fixture: panel entry of panelist 11 whose status has been transitioned to
"removed". -/
def entryRemoved : PanelEntry :=
  { panelist := 11, assignedAt := 0, assignedBy := 1, status := "removed" }

/-- Fixture: active panel entry of a different panelist, 12. -/
def entryActive : PanelEntry :=
  { panelist := 12, assignedAt := 0, assignedBy := 1, status := "active" }

/-- Fixture: a panel-assigned case created by client 2, assigned to admin 5,
on which panelist 11 holds only a removed entry while panelist 12 is active. -/
def caseRemoved : Case :=
  { id := 1
    title := "Land boundary"
    description := "Boundary disagreement"
    type := "land"
    status := some "panel_assigned"
    priority := some "medium"
    createdBy := 2
    assignedTo := some 5
    assignedAt := some 10
    assignedPanelists := [entryRemoved, entryActive]
    panelAssignedAt := some 20
    createdAt := 0
    updatedAt := 20 }

/-- Fixture: a freshly created case of client 2 with no assignments at all. -/
def emptyCase : Case :=
  { id := 2
    title := "Family matter"
    description := "Custody question"
    type := "family"
    status := some "open"
    priority := some "medium"
    createdBy := 2
    assignedTo := none
    assignedAt := none
    assignedPanelists := []
    panelAssignedAt := none
    createdAt := 0
    updatedAt := 0 }

/-- Fixture: user context of panelist 11 (user id 21). -/
def panelistUser11 : UserCtx :=
  { id := 21, role := "panelist", panelistId := some 11, name := "Pan Eleven" }

/-- Fixture: a type-valid user context whose role is none of admin, client or
panelist. -/
def guestUser : UserCtx :=
  { id := 30, role := "guest", panelistId := none, name := "Guest" }

/-- Fixture: a panelist-role context whose optional `panelistId` is null. -/
def panelistNoId : UserCtx :=
  { id := 31, role := "panelist", panelistId := none, name := "Pan Null" }

/-- C1, counterexample: the access check does not deny a user whose role is
none of admin, client or panelist — on `caseRemoved` the `guestUser` context
(role "guest") falls through every branch of `_checkCaseAccess` to the final
`return true`, so access is allowed, not denied. -/
theorem checkCaseAccess_unknown_role_counterexample :
    guestUser.role ≠ "admin" ∧ guestUser.role ≠ "client" ∧
    guestUser.role ≠ "panelist" ∧
    checkCaseAccess caseRemoved guestUser = .allowed := by
  decide

/-- C1, amended: for every case and every acting user whose role is none of
admin, client, or panelist, `_checkCaseAccess` ALLOWS access (the function's
final `return true` is reached), so there is no deny-by-default rule. -/
theorem checkCaseAccess_unknown_role_allows (c : Case) (u : UserCtx)
    (h1 : u.role ≠ "admin") (h2 : u.role ≠ "client") (h3 : u.role ≠ "panelist") :
    checkCaseAccess c u = .allowed := by
  simp [checkCaseAccess, h1, h2, h3]

/-- C1, witness: the amended theorem applied to `caseRemoved` and `guestUser`. -/
theorem checkCaseAccess_unknown_role_allows_witness :
    checkCaseAccess caseRemoved guestUser = .allowed :=
  checkCaseAccess_unknown_role_allows caseRemoved guestUser
    (by decide) (by decide) (by decide)

/-- C10, counterexample: a panelist context with a null `panelistId` does NOT
always hit the TypeError — on a case whose `assignedPanelists` array is empty,
`.some` never invokes the callback, so the check throws a clean 403 Forbidden
instead. -/
theorem checkCaseAccess_nullPanelist_counterexample :
    panelistNoId.role = "panelist" ∧ panelistNoId.panelistId = none ∧
    checkCaseAccess emptyCase panelistNoId = .forbidden := by
  decide

/-- C10, amended: for every panelist-role user whose `panelistId` is null and
every case with at least one `assignedPanelists` entry, `_checkCaseAccess`
throws a TypeError (from `user.panelistId.toString()` inside the `.some`
callback) instead of returning a clean Forbidden denial; only on a case with
no panel entries at all does it degrade to a clean 403. -/
theorem checkCaseAccess_nullPanelist_typeError (c : Case) (u : UserCtx)
    (h1 : u.role = "panelist") (h2 : u.panelistId = none)
    (h3 : c.assignedPanelists ≠ []) :
    checkCaseAccess c u = .typeError := by
  have hadm : u.role ≠ "admin" := by rw [h1]; decide
  have hcli : u.role ≠ "client" := by rw [h1]; decide
  cases hap : c.assignedPanelists with
  | nil => exact absurd hap h3
  | cons a l => simp [checkCaseAccess, hadm, hcli, h1, h2, hap]

/-- C10, witness: the amended theorem applied to `caseRemoved` (two panel
entries) and the null-`panelistId` panelist context. -/
theorem checkCaseAccess_nullPanelist_typeError_witness :
    checkCaseAccess caseRemoved panelistNoId = .typeError :=
  checkCaseAccess_nullPanelist_typeError caseRemoved panelistNoId
    (by decide) (by decide) (by decide)

/-- Fixture: a client context (user id 3) who is neither the creator of
`caseRemoved` (client 2) nor a panelist nor an admin. -/
def strangerClient : UserCtx :=
  { id := 3, role := "client", panelistId := none, name := "Other Client" }

/-- Fixture: an unread party recipient entry for user 7. -/
def recipU : Recipient :=
  { recipientType := "party", userId := some 7, panelistId := none,
    name := "User Seven", email := "u7@x.org", isRead := false, readAt := none }

/-- Fixture: an unread party recipient entry for user 8. -/
def recipV : Recipient :=
  { recipientType := "party", userId := some 8, panelistId := none,
    name := "User Eight", email := "u8@x.org", isRead := false, readAt := none }

/-- Fixture: payload addressed to case 1 with a single recipient. -/
def payload0 : MessagePayload :=
  { caseRef := 1, recipients := [recipU], subject := "Update",
    content := "hello", messageType := "general", priority := "normal" }

/-- Fixture: the message `createMessage` persists for `payload0` sent by
`strangerClient` with assigned id 100 at time 5. -/
def createdMsg0 : Message :=
  { id := 100
    caseRef := 1
    sender :=
      { userType := "client", userId := 3, panelistId := none,
        name := "Other Client" }
    recipients := [recipU]
    subject := "Update"
    content := "hello"
    messageType := "general"
    priority := "normal"
    isDeleted := false
    createdAt := 5
    updatedAt := 5 }

/-- C2, counterexample: `createMessage` performs no authorization of the
sender against the case — client 3, who did not create case 1 and whom
`_checkCaseAccess` would reject with Forbidden, nevertheless creates a
message on it successfully. -/
theorem createMessage_no_auth_counterexample :
    checkCaseAccess caseRemoved strangerClient = .forbidden ∧
    caseRemoved.createdBy ≠ strangerClient.id ∧
    createMessage [caseRemoved] payload0 strangerClient 100 5 =
      Except.ok createdMsg0 := by
  decide

/-- C2, amended: `createMessage` raises NotFound exactly when the referenced
case does not exist, and when it exists the message is persisted for ANY
sender — no participant check is made; the only guarantee is that the stored
sender block is composed from the caller's authenticated identity, not from
the payload. -/
theorem createMessage_spec (caseDb : List Case) (p : MessagePayload)
    (sender : UserCtx) (newId now : Nat) :
    (createMessage caseDb p sender newId now = .error .notFound ↔
      findCase caseDb p.caseRef = none) ∧
    (∀ c, findCase caseDb p.caseRef = some c →
      createMessage caseDb p sender newId now = .ok
        { id := newId
          caseRef := p.caseRef
          sender :=
            { userType := sender.role, userId := sender.id,
              panelistId := sender.panelistId, name := sender.name }
          recipients := p.recipients
          subject := p.subject
          content := p.content
          messageType := p.messageType
          priority := p.priority
          isDeleted := false
          createdAt := now
          updatedAt := now }) := by
  constructor
  · cases h : findCase caseDb p.caseRef <;> simp [createMessage, h]
  · intro c hc
    simp [createMessage, hc]

/-- C2, witness: the amended theorem applied to a one-case store and the
non-participant sender. -/
theorem createMessage_spec_witness :
    createMessage [caseRemoved] payload0 strangerClient 100 5 =
      Except.ok createdMsg0 :=
  (createMessage_spec [caseRemoved] payload0 strangerClient 100 5).2
    caseRemoved (by decide)

/-- C3: evaluation of the code at the failing input.  Panelist 11 holds only a
"removed" entry on `caseRemoved` (panelist 12 holds the active one), yet the
`listCases` panelist filter matches the case — the two dotted conditions are
satisfied by DIFFERENT array entries — so the case is returned to panelist 11,
although no entry of theirs is active and `_checkCaseAccess` would deny them
the very same case. -/
theorem listCases_panelist_cross_element_bug :
    listCasesCases [caseRemoved] panelistUser11 none none = [caseRemoved] ∧
    caseRemoved.assignedPanelists.any
      (fun ap => some ap.panelist == panelistUser11.panelistId &&
        ap.status == "active") = false ∧
    checkCaseAccess caseRemoved panelistUser11 = .forbidden := by
  decide

/-- Fixture: a message on case 1 addressed to users 7 and 8, both unread. -/
def msgBoth : Message :=
  { id := 1
    caseRef := 1
    sender :=
      { userType := "admin", userId := 5, panelistId := none, name := "Admin" }
    recipients := [recipU, recipV]
    subject := "Hearing"
    content := "scheduled"
    messageType := "general"
    priority := "normal"
    isDeleted := false
    createdAt := 0
    updatedAt := 0 }

/-- C4: evaluation of the code at the failing input.  After user 7 marks their
only unread message as read (every recipient entry of user 7 is now read), the
`getUnreadCount` query still counts that message for user 7 — the filter's
`'recipients.userId'` condition is satisfied by user 7's (read) entry and
`'recipients.isRead': false` by user 8's entry — so the count is 1, not 0, and
`findUnreadByUser` still lists the message. -/
theorem getUnreadCount_cross_element_bug :
    (Message.markAsRead msgBoth 7 3).recipients.all
      (fun r => !(r.userId == some 7) || r.isRead) = true ∧
    Message.getUnreadCount [Message.markAsRead msgBoth 7 3] 7 = 1 ∧
    findUnreadByUser [Message.markAsRead msgBoth 7 3] 7 =
      [Message.markAsRead msgBoth 7 3] := by
  decide

/-- Fixture: the owning client of `caseRemoved` (user id 2). -/
def clientOwner : UserCtx :=
  { id := 2, role := "client", panelistId := none, name := "Owner" }

/-- Fixture: a patch that explicitly sets `assignedTo` to JSON null. -/
def patchNullAssignedTo : CasePatch :=
  { assignedTo := some none }

/-- C5, counterexample: the restricted-field strip tests JS truthiness, so an
explicit `assignedTo: null` in a non-admin patch survives the strip and is
persisted — the owning client clears `assignedTo` of `caseRemoved` (previously
admin 5), although `assignedTo` is a restricted field. -/
theorem updateCase_nonadmin_counterexample :
    clientOwner.role ≠ "admin" ∧
    checkCaseAccess caseRemoved clientOwner = .allowed ∧
    updateCase [caseRemoved] 1 patchNullAssignedTo clientOwner =
      Except.ok { caseRemoved with assignedTo := none } ∧
    caseRemoved.assignedTo ≠ none := by
  decide

/-- Fixture: a patch that explicitly sets both `status` and `assignedTo` to
JSON null. -/
def patchNullStatusAssignedTo : CasePatch :=
  { status := some none, assignedTo := some none }

/-- C5, amended: for a non-admin who passes the access check, `updateCase`
succeeds with the stripped patch, but the restricted fields are protected only
against JS-truthy patch values: `assignedPanelists` (arrays are always truthy)
is left unchanged whatever the patch supplies, and a truthy `status`,
`priority` or `assignedTo` value is stripped and leaves the field unchanged,
while an explicit JSON null supplied for any of `status`, `priority` or
`assignedTo` survives `if (updateData[field])` and is persisted, CLEARING that
field.  The falsy empty string for the enum fields is excluded by hypothesis:
unlike null it reaches the update validator, whose enum check rejects it. -/
theorem updateCase_nonadmin_spec (db : List Case) (caseId : Nat)
    (patch : CasePatch) (user : UserCtx) (c : Case)
    (hfind : findCase db caseId = some c)
    (hrole : user.role ≠ "admin")
    (hacc : checkCaseAccess c user = .allowed)
    (hs : patch.status ≠ some (some ""))
    (hp : patch.priority ≠ some (some "")) :
    updateCase db caseId patch user =
      .ok (applyPatch c (stripRestrictedFields patch)) ∧
    (applyPatch c (stripRestrictedFields patch)).status =
      (if patch.status = some none then none else c.status) ∧
    (applyPatch c (stripRestrictedFields patch)).priority =
      (if patch.priority = some none then none else c.priority) ∧
    (applyPatch c (stripRestrictedFields patch)).assignedPanelists =
      c.assignedPanelists ∧
    (applyPatch c (stripRestrictedFields patch)).assignedTo =
      (if patch.assignedTo = some none then none else c.assignedTo) := by
  have hmain : updateCase db caseId patch user =
      .ok (applyPatch c (stripRestrictedFields patch)) := by
    simp [updateCase, hfind, hacc, hrole]
  refine ⟨hmain, ?_, ?_, ?_, ?_⟩
  · cases hst : patch.status with
    | none => simp [applyPatch, stripRestrictedFields, hst]
    | some v =>
      cases v with
      | none => simp [applyPatch, stripRestrictedFields, hst, strValTruthy]
      | some s =>
        have hs2 : s ≠ "" := fun h => hs (by rw [hst, h])
        simp [applyPatch, stripRestrictedFields, hst, strValTruthy, hs2]
  · cases hpr : patch.priority with
    | none => simp [applyPatch, stripRestrictedFields, hpr]
    | some v =>
      cases v with
      | none => simp [applyPatch, stripRestrictedFields, hpr, strValTruthy]
      | some s =>
        have hp2 : s ≠ "" := fun h => hp (by rw [hpr, h])
        simp [applyPatch, stripRestrictedFields, hpr, strValTruthy, hp2]
  · simp [applyPatch, stripRestrictedFields]
  · cases hat : patch.assignedTo with
    | none => simp [applyPatch, stripRestrictedFields, hat]
    | some v =>
      cases v with
      | none => simp [applyPatch, stripRestrictedFields, hat, refTruthy]
      | some x => simp [applyPatch, stripRestrictedFields, hat, refTruthy]

/-- C5, witness: the amended theorem applied to the owning client patching
`caseRemoved` with explicit nulls for both `status` and `assignedTo`, which
are persisted and clear both fields. -/
theorem updateCase_nonadmin_spec_witness :
    updateCase [caseRemoved] 1 patchNullStatusAssignedTo clientOwner =
      Except.ok (applyPatch caseRemoved (stripRestrictedFields patchNullStatusAssignedTo)) :=
  (updateCase_nonadmin_spec [caseRemoved] 1 patchNullStatusAssignedTo clientOwner
    caseRemoved (by decide) (by decide) (by decide) (by decide) (by decide)).1

/-- Marking a list twice for the same user changes nothing the second time:
after the first pass the first matching entry is read, so the second pass
takes the no-mutation branch. -/
theorem markRecipientRead_idem (u t1 t2 : Nat) (l : List Recipient) :
    markRecipientRead u t2 (markRecipientRead u t1 l) =
      markRecipientRead u t1 l := by
  induction l with
  | nil => rfl
  | cons r rs ih =>
    by_cases h : r.userId = some u
    · have hb : (r.userId == some u) = true := by simp [h]
      by_cases hr : r.isRead
      · simp [markRecipientRead, hb, hr]
      · simp [markRecipientRead, hb, hr]
    · have hb : (r.userId == some u) = false := by simp [h]
      simp [markRecipientRead, hb, ih]

/-- C6, counterexample: calling `markAsRead` twice in succession does NOT
leave the same stored document as calling it once — each call ends in
`this.save()` and the `pre('save')` hook restamps `updatedAt`, so the second
call (at time 2) produces a document differing from the single-call result
(stamped at time 1) in `updatedAt`. -/
theorem markAsRead_twice_counterexample :
    Message.markAsRead (Message.markAsRead msgBoth 7 1) 7 2 ≠
      Message.markAsRead msgBoth 7 1 := by
  decide

/-- C6, amended: `markAsRead` is idempotent on everything except the save
hook's timestamp: a second call for the same (message, user) pair performs no
recipient mutation and raises no error — it returns exactly the once-marked
document with `updatedAt` restamped to the second call's time (so at equal
call times the states coincide). -/
theorem markAsRead_idempotent_up_to_updatedAt (m : Message) (u t1 t2 : Nat) :
    Message.markAsRead (Message.markAsRead m u t1) u t2 =
      { Message.markAsRead m u t1 with updatedAt := t2 } := by
  simp [Message.markAsRead, Message.saveHook, markRecipientRead_idem]

/-- When no recipient entry carries the user's id, the recipient pass of
`markAsRead` leaves the list untouched. -/
theorem markRecipientRead_nomatch (u now : Nat) (l : List Recipient)
    (h : ∀ r ∈ l, r.userId ≠ some u) :
    markRecipientRead u now l = l := by
  induction l with
  | nil => rfl
  | cons r rs ih =>
    have h1 : r.userId ≠ some u := h r (List.mem_cons_self r rs)
    have hb : (r.userId == some u) = false := by simp [h1]
    simp only [markRecipientRead, hb, Bool.false_eq_true, if_false]
    rw [ih fun x hx => h x (List.mem_cons_of_mem r hx)]

/-- C7, counterexample: on a message that exists but has no recipient entry
for user 99, `markMessageAsRead` does NOT return the record unchanged — the
unconditional `this.save()` restamps `updatedAt` (here from 0 to 5), so the
returned document differs from the stored one. -/
theorem markMessageAsRead_nomatch_counterexample :
    msgBoth.recipients.all (fun r => !(r.userId == some 99)) = true ∧
    markMessageAsRead [msgBoth] 1 99 5 =
      Except.ok { msgBoth with updatedAt := 5 } ∧
    ({ msgBoth with updatedAt := 5 } : Message) ≠ msgBoth := by
  decide

/-- C7, amended: `markMessageAsRead` raises NotFound exactly when no message
with the given id exists; when the message exists but has no recipient entry
for the given user, the operation succeeds as a no-op on the recipient list —
no entry is touched and no error is raised — but the returned document is the
stored one with `updatedAt` restamped by the save hook, not literally
unchanged. -/
theorem markMessageAsRead_spec (db : List Message) (mid u now : Nat) :
    (markMessageAsRead db mid u now = .error .notFound ↔
      MessageRepo.findById db mid = none) ∧
    (∀ m, MessageRepo.findById db mid = some m →
      (∀ r ∈ m.recipients, r.userId ≠ some u) →
      markMessageAsRead db mid u now = .ok { m with updatedAt := now }) := by
  constructor
  · cases h : MessageRepo.findById db mid <;>
      simp [markMessageAsRead, MessageRepo.markAsRead, h]
  · intro m hm hr
    have hl : markRecipientRead u now m.recipients = m.recipients :=
      markRecipientRead_nomatch u now m.recipients hr
    simp [markMessageAsRead, MessageRepo.markAsRead, hm, Message.markAsRead,
      Message.saveHook, hl]

/-- C7, witness: the amended theorem applied to a store holding only
`msgBoth` and the unrelated user 99. -/
theorem markMessageAsRead_spec_witness :
    markMessageAsRead [msgBoth] 1 99 5 =
      Except.ok { msgBoth with updatedAt := 5 } :=
  (markMessageAsRead_spec [msgBoth] 1 99 5).2 msgBoth (by decide) (by decide)

/-- C8: `assignPanelists` raises NotFound exactly on a missing case and
otherwise appends one fresh "active" entry per supplied panelist id (no
deduplication, so the array grows by exactly the number of supplied ids),
sets `status = "panel_assigned"` and `panelAssignedAt = now`, and saves (the
hook restamping `updatedAt`). -/
theorem assignPanelists_spec (db : List Case) (caseId : Nat)
    (pids : List Nat) (aby now : Nat) :
    (findCase db caseId = none →
      assignPanelists db caseId pids aby now = .error .notFound) ∧
    (∀ c, findCase db caseId = some c →
      assignPanelists db caseId pids aby now = .ok
        { c with
          assignedPanelists := c.assignedPanelists ++ pids.map (fun pid =>
            { panelist := pid, assignedAt := now, assignedBy := aby,
              status := "active" })
          status := some "panel_assigned"
          panelAssignedAt := some now
          updatedAt := now } ∧
      (c.assignedPanelists ++ pids.map (fun pid =>
        ({ panelist := pid, assignedAt := now, assignedBy := aby,
           status := "active" } : PanelEntry))).length =
        c.assignedPanelists.length + pids.length ∧
      ∀ e ∈ pids.map (fun pid =>
        ({ panelist := pid, assignedAt := now, assignedBy := aby,
           status := "active" } : PanelEntry)), e.status = "active") := by
  constructor
  · intro h
    simp [assignPanelists, h]
  · intro c hc
    refine ⟨?_, ?_, ?_⟩
    · simp [assignPanelists, hc, Case.saveHook]
    · simp
    · intro e he
      simp only [List.mem_map] at he
      obtain ⟨pid, _, rfl⟩ := he
      rfl

/-- C8, witness: the theorem applied to a store holding only the unassigned
`emptyCase`, assigning panelists 11 and 12. -/
theorem assignPanelists_spec_witness :
    assignPanelists [emptyCase] 2 [11, 12] 5 30 = Except.ok
      { emptyCase with
        assignedPanelists := emptyCase.assignedPanelists ++ [11, 12].map (fun pid =>
          { panelist := pid, assignedAt := 30, assignedBy := 5,
            status := "active" })
        status := some "panel_assigned"
        panelAssignedAt := some 30
        updatedAt := 30 } :=
  ((assignPanelists_spec [emptyCase] 2 [11, 12] 5 30).2 emptyCase (by decide)).1

/-- A per-entry relation stating that an operation changed at most the
`isRead`/`readAt` fields of a recipient entry, and changed nothing at all
unless the entry belongs to the acting user `u`. -/
def ReadOnlyUpdate (u : Nat) (r rNew : Recipient) : Prop :=
  rNew.recipientType = r.recipientType ∧ rNew.userId = r.userId ∧
  rNew.panelistId = r.panelistId ∧ rNew.name = r.name ∧
  rNew.email = r.email ∧ (r.userId ≠ some u → rNew = r)

/-- `ReadOnlyUpdate` holds reflexively. -/
theorem readOnlyUpdate_refl (u : Nat) (r : Recipient) : ReadOnlyUpdate u r r :=
  ⟨rfl, rfl, rfl, rfl, rfl, fun _ => rfl⟩

/-- The recipient pass of `markAsRead` relates the old and new lists
pointwise by `ReadOnlyUpdate`. -/
theorem markRecipientRead_readOnly (u now : Nat) (l : List Recipient) :
    List.Forall₂ (ReadOnlyUpdate u) l (markRecipientRead u now l) := by
  induction l with
  | nil => exact List.Forall₂.nil
  | cons r rs ih =>
    by_cases h : r.userId = some u
    · have hb : (r.userId == some u) = true := by simp [h]
      simp only [markRecipientRead, hb, if_true]
      refine List.Forall₂.cons ?_ (List.forall₂_same.2 fun x _ => readOnlyUpdate_refl u x)
      by_cases hr : r.isRead
      · simp only [hr, Bool.not_true, Bool.false_eq_true, if_false]
        exact readOnlyUpdate_refl u r
      · simp only [hr, Bool.not_false, if_true]
        exact ⟨rfl, rfl, rfl, rfl, rfl, fun hne => absurd h hne⟩
    · have hb : (r.userId == some u) = false := by simp [h]
      simp only [markRecipientRead, hb, Bool.false_eq_true, if_false]
      exact List.Forall₂.cons (readOnlyUpdate_refl u r) ih

/-- C9: every post-creation message operation preserves recipient-list
membership and touches at most the `isRead`/`readAt` fields of the acting
user's own entries: `markAsRead` and `bulkMarkAsRead` relate old and new
recipient lists pointwise by `ReadOnlyUpdate` (same length, all identity
fields equal, entries of other users literally unchanged), and the soft
delete leaves the recipient list identical. -/
theorem message_ops_touch_only_read_state (m : Message) (u now : Nat)
    (ids : List Nat) :
    List.Forall₂ (ReadOnlyUpdate u) m.recipients
      (Message.markAsRead m u now).recipients ∧
    List.Forall₂ (ReadOnlyUpdate u) m.recipients
      (bulkMarkMessage ids u now m).recipients ∧
    (softDelete m).recipients = m.recipients := by
  refine ⟨?_, ?_, rfl⟩
  · simp only [Message.markAsRead, Message.saveHook]
    exact markRecipientRead_readOnly u now m.recipients
  · by_cases hg : (ids.contains m.id &&
        m.recipients.any (fun r => r.userId == some u)) = true
    · simp only [bulkMarkMessage, hg, if_true]
      rw [List.forall₂_map_right_iff]
      refine List.forall₂_same.2 fun x _ => ?_
      by_cases hx : x.userId = some u
      · have hb : (x.userId == some u) = true := by simp [hx]
        simp only [hb, if_true]
        exact ⟨rfl, rfl, rfl, rfl, rfl, fun hne => absurd hx hne⟩
      · have hb : (x.userId == some u) = false := by simp [hx]
        simp only [hb, Bool.false_eq_true, if_false]
        exact readOnlyUpdate_refl u x
    · simp only [bulkMarkMessage, hg, Bool.false_eq_true, if_false]
      exact List.forall₂_same.2 fun x _ => readOnlyUpdate_refl u x

/-- C9, witness: the theorem applied to `msgBoth` with acting user 7. -/
theorem message_ops_touch_only_read_state_witness :
    List.Forall₂ (ReadOnlyUpdate 7) msgBoth.recipients
      (Message.markAsRead msgBoth 7 3).recipients :=
  (message_ops_touch_only_read_state msgBoth 7 3 [1]).1
